import Mathlib

/-!
Shallow embedding of the py_BIS repository (BIS data backend):
the XML observation parser, the pivot/percent-change engine, the
chart-endpoint control flow, the remote fetchers and the chart
renderer's colour handling, together with theorems settling the
spec claims about them.

Sources embedded: src/BIS.py, src/chart.py, src/main.py, src/plot.py.
-/

namespace PyBIS

/-! ## Data model: a well-formed SDMX-like XML document.

`ET.fromstring` has succeeded; the document is the list of its
Series elements (in document order, as returned by findall), each
carrying its optional BORROWERS_CTY attribute and its child Obs
elements with their optional TIME_PERIOD / OBS_VALUE attributes. -/

structure ObsEl where
  timePeriod : Option String
  obsValue : Option String
deriving Repr, DecidableEq

structure SeriesEl where
  borrowersCty : Option String
  obs : List ObsEl
deriving Repr, DecidableEq

abbrev XmlDoc := List SeriesEl

/-- One parsed observation record, as appended by `parse_bis_xml`:
`{'Date': ..., 'Value': ..., 'Country': ...}`. -/
structure Row where
  date : Option String
  value : Option ℚ
  country : String
deriving Repr, DecidableEq

/-! ## Model of Python float(str)

`float(s)` on a finite decimal literal: optional surrounding spaces,
optional sign, digits with an optional fractional part and an optional
decimal exponent.  The special literals inf/infinity/nan, which cannot
be represented in ℚ, are outside the model; no claim exercises them. -/

def digitVal (c : Char) : Option ℕ :=
  if c.isDigit then some (c.toNat - 48) else none

def digitsToNat (cs : List Char) : Option ℕ :=
  if cs.isEmpty then none
  else cs.foldl (fun acc c => acc.bind fun a => (digitVal c).map fun d => a * 10 + d) (some 0)

/-- Split a character list at the first character satisfying `p`:
returns the prefix before it and, when found, the suffix after it. -/
def splitAtChar (p : Char → Bool) (cs : List Char) : List Char × Option (List Char) :=
  match cs.span (fun c => !(p c)) with
  | (pre, []) => (pre, none)
  | (pre, _ :: post) => (pre, some post)

def trimSpaces (cs : List Char) : List Char :=
  ((cs.dropWhile (fun c => c = ' ')).reverse.dropWhile (fun c => c = ' ')).reverse

/-- Unsigned mantissa: digits, optionally with a decimal point
(Python accepts forms like 1., .5 but not a lone dot). -/
def parseUnsignedMantissa (cs : List Char) : Option ℚ :=
  match splitAtChar (fun c => c = '.') cs with
  | (ip, none) => (digitsToNat ip).map fun n => (n : ℚ)
  | (ip, some fp) =>
    if ip.isEmpty && fp.isEmpty then none
    else
      (if ip.isEmpty then some 0 else digitsToNat ip).bind fun i =>
        (if fp.isEmpty then some 0 else digitsToNat fp).map fun f =>
          (i : ℚ) + (f : ℚ) / (10 : ℚ) ^ fp.length

def parseSignedExponent (cs : List Char) : Option ℤ :=
  match cs with
  | '+' :: rest => (digitsToNat rest).map fun n => (n : ℤ)
  | '-' :: rest => (digitsToNat rest).map fun n => -(n : ℤ)
  | rest => (digitsToNat rest).map fun n => (n : ℤ)

def pyFloat (s : String) : Option ℚ :=
  let cs := trimSpaces s.toList
  let (neg, cs1) :=
    match cs with
    | '+' :: r => (false, r)
    | '-' :: r => (true, r)
    | r => (false, r)
  match splitAtChar (fun c => c = 'e' || c = 'E') cs1 with
  | (mant, expPart) =>
    (parseUnsignedMantissa mant).bind fun m =>
      (match expPart with
       | none => some (0 : ℤ)
       | some ec => parseSignedExponent ec).map fun e =>
        let v := m * (10 : ℚ) ^ e
        if neg then -v else v

/-! ## XML observation parser (parse_bis_xml / parse_bis_xml_df)

`float(obs.get('OBS_VALUE')) if obs.get('OBS_VALUE') else None`:
a missing attribute gives None, an empty string is falsy and gives
None, and any other string goes through float(), whose ValueError
propagates and aborts the whole parse. -/

def parseObsValue (v : Option String) : Except String (Option ℚ) :=
  match v with
  | none => .ok none
  | some s =>
    if s = "" then .ok none
    else
      match pyFloat s with
      | some q => .ok (some q)
      | none => .error ("ValueError: could not convert string to float: " ++ s)

def seriesCountry (s : SeriesEl) : String := s.borrowersCty.getD "Unknown"

def parseObs (cty : String) (o : ObsEl) : Except String Row :=
  (parseObsValue o.obsValue).map fun v =>
    { date := o.timePeriod, value := v, country := cty }

/-- The inner loop of parse_bis_xml over the Obs children of one
Series; the first ValueError aborts the loop. -/
def parseSeriesObs (cty : String) : List ObsEl → Except String (List Row)
  | [] => .ok []
  | o :: rest =>
    match parseObs cty o with
    | .error e => .error e
    | .ok r =>
      match parseSeriesObs cty rest with
      | .error e => .error e
      | .ok rs => .ok (r :: rs)

/-- parse_bis_xml: nested loops over Series then Obs, appending records
in document order; the first ValueError aborts the parse. -/
def parse_bis_xml : XmlDoc → Except String (List Row)
  | [] => .ok []
  | s :: rest =>
    match parseSeriesObs (seriesCountry s) s.obs with
    | .error e => .error e
    | .ok rs1 =>
      match parse_bis_xml rest with
      | .error e => .error e
      | .ok rs2 => .ok (rs1 ++ rs2)

/-- The record the spec predicts for one Obs element (null value when
the attribute is absent or empty). -/
def specRowOfObs (cty : String) (o : ObsEl) : Row :=
  { date := o.timePeriod,
    value := ((parseObsValue o.obsValue).toOption).join,
    country := cty }

/-- Stated from the spec's words for comparison with parse_bis_xml:
the K by M records of the document laid out in document order, all
observations of an earlier Series before those of a later one. -/
def specDocumentOrderRows (doc : XmlDoc) : List Row :=
  (doc.map fun s => s.obs.map (specRowOfObs (seriesCountry s))).flatten

def exceptIsOk {ε α : Type} : Except ε α → Bool
  | .ok _ => true
  | .error _ => false

/-! ## Date handling of the chart endpoint

`pd.PeriodIndex(df['Date'], freq='Q').to_timestamp()` turns a
quarterly label YYYY-Qn into the timestamp of the first day of the
quarter, and `pd.to_datetime(startdate)` parses the documented
yyyy-mm-dd query format.  Timestamps are embedded as integers by the
order-preserving (and on calendar dates injective) encoding
((year*12 + (month-1))*31 + (day-1)); only ordering and equality of
timestamps are ever used downstream. -/

def dateOrd (y m d : ℕ) : ℤ := ((y * 12 + (m - 1)) * 31 + (d - 1) : ℤ)

def quarterToTs (y q : ℕ) : ℤ := dateOrd y (3 * (q - 1) + 1) 1

/-- The quarterly-period grammar accepted for TIME_PERIOD labels
(canonical YYYY-Qn form used by the BIS feed). -/
def parseQuarterLabel (s : String) : Option ℤ :=
  match s.toList with
  | [a, b, c, d, '-', 'Q', qc] =>
    (digitsToNat [a, b, c, d]).bind fun y =>
      (digitVal qc).bind fun q =>
        if 1 ≤ q ∧ q ≤ 4 then some (quarterToTs y q) else none
  | _ => none

/-- PeriodIndex conversion of one Date cell: a missing or
non-conforming label raises a DateParseError. -/
def toQuarterTimestamp (d : Option String) : Except String ℤ :=
  match d with
  | none => .error "DateParseError: missing TIME_PERIOD"
  | some s =>
    match parseQuarterLabel s with
    | some t => .ok t
    | none => .error ("DateParseError: " ++ s)

/-- A row after the Date column has been converted to a timestamp. -/
structure PRow where
  date : ℤ
  country : String
  value : Option ℚ
deriving Repr, DecidableEq

def convertDates (rows : List Row) : Except String (List PRow) :=
  rows.mapM fun r =>
    (toQuarterTimestamp r.date).map fun t =>
      { date := t, country := r.country, value := r.value }

/-- pd.to_datetime on the documented yyyy-mm-dd startdate format. -/
def parseIsoDate (s : String) : Option ℤ :=
  match s.toList with
  | [y1, y2, y3, y4, '-', m1, m2, '-', d1, d2] =>
    (digitsToNat [y1, y2, y3, y4]).bind fun y =>
      (digitsToNat [m1, m2]).bind fun mo =>
        (digitsToNat [d1, d2]).bind fun da =>
          if 1 ≤ mo ∧ mo ≤ 12 ∧ 1 ≤ da ∧ da ≤ 31 then some (dateOrd y mo da) else none
  | _ => none

/-! ## Sorting and filtering (df.sort_values, df[df['Date'] >= start]) -/

def insertLeB {α : Type} (le : α → α → Bool) (a : α) : List α → List α
  | [] => [a]
  | x :: xs => if le a x then a :: x :: xs else x :: insertLeB le a xs

def sortLeB {α : Type} (le : α → α → Bool) : List α → List α
  | [] => []
  | x :: xs => insertLeB le x (sortLeB le xs)

def sortByDate (rows : List PRow) : List PRow :=
  sortLeB (fun a b => decide (a.date ≤ b.date)) rows

/-- The startdate filter df[df['Date'] >= start]: keep rows whose
date is greater than or equal to the parsed start date. -/
def filterStart (start : ℤ) (rows : List PRow) : List PRow :=
  rows.filter fun r => decide (start ≤ r.date)

/-! ## Pivot (df.pivot(index="Date", columns="Country", values="Value"))

pandas DataFrame.pivot raises
ValueError: Index contains duplicate entries, cannot reshape
whenever two rows share the same (Date, Country) pair; otherwise the
matrix has the sorted unique dates as its row index, the sorted unique
countries as its columns, and each cell holds the value of the unique
matching row (or null when no row matches). -/

structure Pivot where
  dates : List ℤ
  cols : List String
  data : List (List (Option ℚ))
deriving Repr, DecidableEq

def cellLookup (rows : List PRow) (d : ℤ) (c : String) : Option ℚ :=
  (rows.find? fun r => decide (r.date = d) && decide (r.country = c)).bind PRow.value

def pivotRows (rows : List PRow) : Except String Pivot :=
  if (rows.map fun r => (r.date, r.country)).Nodup then
    let ds := sortLeB (fun a b => decide (a ≤ b)) (rows.map PRow.date).dedup
    let cs := sortLeB (fun a b => decide (a ≤ b)) (rows.map PRow.country).dedup
    .ok { dates := ds, cols := cs,
          data := ds.map fun d => cs.map fun c => cellLookup rows d c }
  else .error "Index contains duplicate entries, cannot reshape"

/-! ## Percent-change transform (df.pivot.pct_change(periods=n))

pct_change(n) is df.div(df.shift(n)).sub(1) computed columnwise with
null (NaN) propagation: shifting prepends n undefined rows, division
and subtraction propagate null operands.  No forward-filling is
applied (pandas fill_method=None, the current default; the deprecated
pad default is not modelled).  Cells are rationals: the IEEE floats of
the source are exact on the finite values these transforms combine;
float division by zero (infinity) is outside the model. -/

def optDiv (a b : Option ℚ) : Option ℚ :=
  match a, b with
  | some x, some y => some (x / y)
  | _, _ => none

def optSub1 (a : Option ℚ) : Option ℚ := a.map fun x => x - 1

def shiftRows (n : ℕ) (m : List (List (Option ℚ))) : List (List (Option ℚ)) :=
  (List.range m.length).map fun i =>
    if i < n then (m.getD i []).map fun _ => (none : Option ℚ)
    else m.getD (i - n) []

def pct_change (n : ℕ) (m : List (List (Option ℚ))) : List (List (Option ℚ)) :=
  List.zipWith (fun r1 r2 => (List.zipWith optDiv r1 r2).map optSub1) m (shiftRows n m)

/-- Cell access on a matrix: none both for a null cell and for an
index outside the matrix. -/
def cellAt (m : List (List (Option ℚ))) (i j : ℕ) : Option ℚ :=
  ((m.get? i).bind fun row => row.get? j).join

/-- The per-cell quarter-over-quarter formula of the spec:
(value[i]/value[i-1]) - 1, undefined when either operand is. -/
def pctCell (a b : Option ℚ) : Option ℚ :=
  match a, b with
  | some x, some y => some (x / y - 1)
  | _, _ => none

/-- The mode branch of the chart endpoint: yoy and qoq replace the
matrix by its 4- resp. 1-period percent change and overwrite the units
label; any other mode passes both through unchanged. -/
def transformed (mode : String) (units : String) (p : Pivot) : Pivot × String :=
  if mode = "yoy" then ({ p with data := pct_change 4 p.data }, "YoY % change")
  else if mode = "qoq" then ({ p with data := pct_change 1 p.data }, "QoQ % change")
  else (p, units)

/-! ## Chart renderer colour handling (plot.py, plot_ts)

The source assigns the palette through an `if` on len(df.columns)==1
followed by a separate if/elif/elif/elif/else chain, so the first
assignment (for one column) is unconditionally overwritten by the
chain's else branch; the chain's else also serves every column count
of 6 or more, capping the palette at 13 entries. -/

def paletteTwo : List String := ["#f1c40f", "#2ecc71"]
def paletteThree : List String := ["#f1c40f", "#2ecc71", "#9b59b6", "#e74c3c", "#bababa"]
def paletteFour : List String :=
  ["#f1c40f", "#2ecc71", "#9b59b6", "#e74c3c", "#bababa", "#0f3cf1"]
def paletteFive : List String :=
  ["#f1c40f", "#2ecc71", "#9b59b6", "#e74c3c", "#bababa", "#0f3cf1", "#cc2e89"]
def paletteElse : List String :=
  ["#f1c40f", "#2ecc71", "#9b59b6", "#e74c3c", "#bababa", "#0f3cf1", "#cc2e89",
   "#b69b59", "#5974b6", "#3cd7e7", "#7d2eff", "#adf10f", "#abecc7"]

def selectColors (n : ℕ) : List String :=
  -- mirrors the source: colors = ["#f1c40f"] when n == 1, then the
  -- if/elif/else chain below reassigns colors in every case, so the
  -- one-column palette is dead and n == 1 falls into the else branch
  let _colorsIfOne := if n = 1 then ["#f1c40f"] else []
  if n = 2 then paletteTwo
  else if n = 3 then paletteThree
  else if n = 4 then paletteFour
  else if n = 5 then paletteFive
  else paletteElse

/-- colors[i] as used by the line and Bar branches: none models the
IndexError raised when i is outside the palette. -/
def lineColor (n i : ℕ) : Option String := (selectColors n).get? i

/-- colors[i % len(colors)] as used by the distribution branch. -/
def distColor (n i : ℕ) : Option String :=
  (selectColors n).get? (i % (selectColors n).length)

structure Trace where
  name : String
  ys : List (Option ℚ)
  color : Option String
deriving Repr, DecidableEq

structure Fig where
  traces : List Trace
  title : String
  yaxisTitle : String
  textColor : String
deriving Repr, DecidableEq

def columnValues (p : Pivot) (j : ℕ) : List (Option ℚ) :=
  p.data.map fun row => (row.get? j).join

/-- plot_ts on the default line chart kind: one Scatter trace per
column, trace i named after column i, coloured colors[i], plus the
theme-driven text colour and the units axis label. -/
def plot_ts (p : Pivot) (nome units theme : String) : Fig :=
  { traces := (List.range p.cols.length).map fun i =>
      { name := (p.cols.get? i).getD "",
        ys := columnValues p i,
        color := lineColor p.cols.length i },
    title := nome,
    yaxisTitle := units,
    textColor := if theme = "light" then "#0D1018" else "#FFFFFF" }

/-! ## Remote fetchers (main.py / BIS.py / chart.py)

A transport outcome is either a response (status and body) or a
raised requests.RequestException (timeout, DNS failure, connection
error).  response.raise_for_status() raises requests.HTTPError — a
RequestException subclass — on any 4xx/5xx status.  main.py's and
BIS.py's fetch_bis_data wrap the whole attempt in
except requests.exceptions.RequestException and re-raise it as
HTTPException(500, ...); BIS.py's fetch_bis_data_simple and chart.py's
fetch_bis_data have no such handler. -/

inductive TransportOutcome (α : Type) where
  | response (status : ℕ) (body : α)
  | failure (msg : String)
deriving Repr, DecidableEq

inductive PyError where
  | requestException (msg : String)
  | valueError (msg : String)
  | httpException (status : ℕ) (detail : String)
deriving Repr, DecidableEq

def requests_get {α : Type} : TransportOutcome α → Except PyError (ℕ × α)
  | .response s b => .ok (s, b)
  | .failure m => .error (.requestException m)

def raise_for_status (status : ℕ) : Except PyError Unit :=
  if 400 ≤ status ∧ status < 600 then
    .error (.requestException ("HTTPError: status code " ++ toString status))
  else .ok ()

/-- BIS.py fetch_bis_data_simple / chart.py fetch_bis_data: GET,
raise_for_status, return the raw body; no exception handler. -/
def fetch_bis_data_simple {α : Type} (t : TransportOutcome α) : Except PyError α :=
  match requests_get t with
  | .error e => .error e
  | .ok (status, body) =>
    match raise_for_status status with
    | .error e => .error e
    | .ok _ => .ok body

/-- main.py / BIS.py fetch_bis_data: GET, raise_for_status, parse,
with the whole attempt wrapped in except RequestException, re-raised
as HTTPException(500, "Error fetching BIS series: ...").  A ValueError
from float() is not a RequestException and is not caught. -/
def fetch_bis_data (t : TransportOutcome XmlDoc) : Except PyError (List Row) :=
  let attempt : Except PyError (List Row) :=
    match requests_get t with
    | .error e => .error e
    | .ok (status, doc) =>
      match raise_for_status status with
      | .error e => .error e
      | .ok _ =>
        match parse_bis_xml doc with
        | .ok rows => .ok rows
        | .error m => .error (.valueError m)
  match attempt with
  | .error (.requestException m) =>
    .error (.httpException 500 ("Error fetching BIS series: " ++ m))
  | r => r

def isRawTransport {α : Type} : Except PyError α → Bool
  | .error (.requestException _) => true
  | _ => false

/-! ## The chart endpoint (bis_credit_chart in chart.py / BIS.py)

Modelled from the already-fetched document onward: parse, the
df.empty 404 short-circuit, Date conversion and sort, the optional
startdate filter (None and the empty string are falsy and skip it; an
unparsable startdate is a 400), pivot, the mode transform and the
rendered figure.  An uncaught Python exception is a `raised` result. -/

inductive Response where
  | figure (f : Fig)
  | jsonError (status : ℕ) (body : String)
  | raised (msg : String)
deriving Repr, DecidableEq

def bis_credit_chart (doc : XmlDoc) (units theme : String)
    (startdate : Option String) (mode : String) : Response :=
  match parse_bis_xml doc with
  | .error e => .raised e
  | .ok rows =>
    if rows.isEmpty then .jsonError 404 "No data returned from BIS."
    else
      match convertDates rows with
      | .error e => .raised e
      | .ok prows =>
        let sorted := sortByDate prows
        let filteredE : Except Response (List PRow) :=
          match startdate with
          | none => .ok sorted
          | some s =>
            if s = "" then .ok sorted
            else
              match parseIsoDate s with
              | some start => .ok (filterStart start sorted)
              | none => .error (.jsonError 400 ("Invalid startdate: " ++ s))
        match filteredE with
        | .error resp => resp
        | .ok filtered =>
          match pivotRows filtered with
          | .error e => .raised e
          | .ok p =>
            let pu := transformed mode units p
            .figure (plot_ts pu.1 "BIS Data" pu.2 theme)

/-! ## Concrete inputs used to instantiate the theorems -/

/-- A two-row, one-column pivot matrix. -/
def pivotW : Pivot :=
  { dates := [0, 1], cols := ["US"], data := [[some 100], [some 110]] }

/-- A one-row, three-column pivot matrix. -/
def pivotA : Pivot :=
  { dates := [0], cols := ["CN", "JP", "US"],
    data := [[some 1, some 2, some 3]] }

/-- A two-row, three-column pivot matrix with different contents. -/
def pivotB : Pivot :=
  { dates := [5, 6], cols := ["DE", "FR", "IT"],
    data := [[none, none, none], [some 9, none, some 7]] }

/-- A document with two Series of two Obs each, all values absent,
empty or numeric. -/
def docW : XmlDoc :=
  [{ borrowersCty := some "US",
     obs := [{ timePeriod := some "2020-Q1", obsValue := some "100" },
             { timePeriod := some "2020-Q2", obsValue := some "102.5" }] },
   { borrowersCty := some "JP",
     obs := [{ timePeriod := some "2020-Q1", obsValue := some "-3" },
             { timePeriod := some "2020-Q2", obsValue := some "" }] }]

/-! ## Helper lemmas -/

theorem get?_zipWith {α β γ : Type} (f : α → β → γ) :
    ∀ (l1 : List α) (l2 : List β) (i : ℕ),
      (List.zipWith f l1 l2).get? i =
        (l1.get? i).bind fun a => (l2.get? i).map fun b => f a b
  | [], _, _ => by simp
  | _ :: _, [], _ => by simp
  | a :: l1, b :: l2, 0 => by simp
  | a :: l1, b :: l2, i + 1 => by
    simpa using get?_zipWith f l1 l2 i

theorem get?_range_map {β : Type} (f : ℕ → β) (k i : ℕ) :
    ((List.range k).map f).get? i = if i < k then some (f i) else none := by
  rw [List.get?_map]
  by_cases h : i < k
  · rw [List.get?_range h]
    simp [h]
  · have hn : (List.range k).get? i = none := by
      rw [List.get?_eq_getElem?]
      exact List.getElem?_eq_none (by simpa using Nat.le_of_not_lt h)
    rw [hn]
    simp [h]

theorem get?_isSome_of_lt {α : Type} {l : List α} {i : ℕ} (h : i < l.length) :
    (l.get? i).isSome = true := by
  rw [List.get?_eq_getElem?, List.getElem?_eq_getElem h]
  rfl

theorem get?_eq_none_of_le {α : Type} {l : List α} {i : ℕ} (h : l.length ≤ i) :
    l.get? i = none := by
  rw [List.get?_eq_getElem?]
  exact List.getElem?_eq_none h

theorem pctCell_none_left (b : Option ℚ) : pctCell none b = none := by
  cases b <;> rfl

theorem pctCell_none_right (a : Option ℚ) : pctCell a none = none := by
  cases a <;> rfl

theorem optSub1_optDiv (a b : Option ℚ) : optSub1 (optDiv a b) = pctCell a b := by
  cases a <;> cases b <;> rfl

theorem optDiv_none_right (a : Option ℚ) : optDiv a none = none := by
  cases a <;> rfl

theorem shiftRows_get? (n : ℕ) (m : List (List (Option ℚ))) (i : ℕ) :
    (shiftRows n m).get? i =
      if i < m.length then
        some (if i < n then (m.getD i []).map fun _ => (none : Option ℚ)
              else m.getD (i - n) [])
      else none := by
  simp only [shiftRows, get?_range_map]

theorem shiftRows_length (n : ℕ) (m : List (List (Option ℚ))) :
    (shiftRows n m).length = m.length := by
  simp [shiftRows]

theorem pct_change_length (n : ℕ) (m : List (List (Option ℚ))) :
    (pct_change n m).length = m.length := by
  simp [pct_change, shiftRows_length]

theorem cellAt_pct_change {n : ℕ} {m : List (List (Option ℚ))} {i j : ℕ}
    (h1 : n ≤ i) (h2 : i < m.length) :
    cellAt (pct_change n m) i j = pctCell (cellAt m i j) (cellAt m (i - n) j) := by
  have hin : i - n < m.length := lt_of_le_of_lt (Nat.sub_le i n) h2
  obtain ⟨r1, hr1⟩ : ∃ r, m.get? i = some r :=
    Option.isSome_iff_exists.mp (get?_isSome_of_lt h2)
  obtain ⟨r2, hr2⟩ : ∃ r, m.get? (i - n) = some r :=
    Option.isSome_iff_exists.mp (get?_isSome_of_lt hin)
  have hr2g : m[i - n]? = some r2 := by
    rw [← List.get?_eq_getElem?]
    exact hr2
  have hs : (shiftRows n m).get? i = some r2 := by
    rw [shiftRows_get?]
    simp [h2, Nat.not_lt.mpr h1, List.getD_eq_getD_get?, hr2g]
  have hp : (pct_change n m).get? i =
      some ((List.zipWith optDiv r1 r2).map optSub1) := by
    rw [pct_change, get?_zipWith, hr1, hs]
    rfl
  rw [cellAt, hp, cellAt, cellAt, hr1, hr2]
  simp only [Option.some_bind]
  rw [List.get?_map, get?_zipWith]
  cases hj1 : r1.get? j with
  | none => simp [pctCell_none_left]
  | some a =>
    cases hj2 : r2.get? j with
    | none => simp [pctCell_none_right]
    | some b => simp [optSub1_optDiv]

theorem cellAt_pct_change_none {n : ℕ} {m : List (List (Option ℚ))} {i j : ℕ}
    (h : i < n ∨ m.length ≤ i) :
    cellAt (pct_change n m) i j = none := by
  rcases h with h | h
  · by_cases h2 : i < m.length
    · obtain ⟨r1, hr1⟩ : ∃ r, m.get? i = some r :=
        Option.isSome_iff_exists.mp (get?_isSome_of_lt h2)
      have hr1g : m[i]? = some r1 := by
        rw [← List.get?_eq_getElem?]
        exact hr1
      have hs : (shiftRows n m).get? i = some (r1.map fun _ => (none : Option ℚ)) := by
        rw [shiftRows_get?]
        simp [h2, h, List.getD_eq_getD_get?, hr1g]
      have hp : (pct_change n m).get? i =
          some ((List.zipWith optDiv r1 (r1.map fun _ => (none : Option ℚ))).map optSub1) := by
        rw [pct_change, get?_zipWith, hr1, hs]
        rfl
      rw [cellAt, hp]
      simp only [Option.some_bind]
      rw [List.get?_map, get?_zipWith, List.get?_map]
      cases hj1 : r1.get? j with
      | none => simp
      | some a => simp [optDiv_none_right, optSub1]
    · have : (pct_change n m).get? i = none :=
        get?_eq_none_of_le (by rw [pct_change_length]; exact Nat.le_of_not_lt h2)
      rw [cellAt, this]
      rfl
  · have : (pct_change n m).get? i = none :=
      get?_eq_none_of_le (by rw [pct_change_length]; exact h)
    rw [cellAt, this]
    rfl

theorem parseObs_isOk (cty : String) (o : ObsEl) :
    exceptIsOk (parseObs cty o) = exceptIsOk (parseObsValue o.obsValue) := by
  cases h : parseObsValue o.obsValue <;> simp [parseObs, h, exceptIsOk, Except.map]

theorem parseObs_eq_of_ok (cty : String) (o : ObsEl)
    (h : exceptIsOk (parseObsValue o.obsValue) = true) :
    parseObs cty o = .ok (specRowOfObs cty o) := by
  cases hv : parseObsValue o.obsValue with
  | error e =>
    rw [hv] at h
    exact absurd h (by simp [exceptIsOk])
  | ok v => simp [parseObs, hv, specRowOfObs, Except.map, Except.toOption]

theorem parseSeriesObs_isOk (cty : String) (l : List ObsEl) :
    exceptIsOk (parseSeriesObs cty l) =
      l.all fun o => exceptIsOk (parseObsValue o.obsValue) := by
  induction l with
  | nil => rfl
  | cons o rest ih =>
    rw [List.all_cons, ← parseObs_isOk cty o, ← ih]
    cases h1 : parseObs cty o with
    | error e => simp [parseSeriesObs, h1, exceptIsOk]
    | ok r =>
      cases h2 : parseSeriesObs cty rest with
      | error e => simp [parseSeriesObs, h1, h2, exceptIsOk]
      | ok rs => simp [parseSeriesObs, h1, h2, exceptIsOk]

theorem parse_bis_xml_isOk (doc : XmlDoc) :
    exceptIsOk (parse_bis_xml doc) =
      doc.all fun s => exceptIsOk (parseSeriesObs (seriesCountry s) s.obs) := by
  induction doc with
  | nil => rfl
  | cons s rest ih =>
    rw [List.all_cons, ← ih]
    cases h1 : parseSeriesObs (seriesCountry s) s.obs with
    | error e => simp [parse_bis_xml, h1, exceptIsOk]
    | ok rs1 =>
      cases h2 : parse_bis_xml rest with
      | error e => simp [parse_bis_xml, h1, h2, exceptIsOk]
      | ok rs2 => simp [parse_bis_xml, h1, h2, exceptIsOk]

theorem parseSeriesObs_eq_of_all (cty : String) (l : List ObsEl)
    (h : ∀ o ∈ l, exceptIsOk (parseObsValue o.obsValue) = true) :
    parseSeriesObs cty l = .ok (l.map (specRowOfObs cty)) := by
  induction l with
  | nil => rfl
  | cons o rest ih =>
    have h1 : parseObs cty o = .ok (specRowOfObs cty o) :=
      parseObs_eq_of_ok cty o (h o (List.mem_cons_self o rest))
    have h2 : parseSeriesObs cty rest = .ok (rest.map (specRowOfObs cty)) :=
      ih fun o2 ho2 => h o2 (List.mem_cons_of_mem o ho2)
    simp [parseSeriesObs, h1, h2]

theorem parse_bis_xml_eq_of_all :
    ∀ (doc : XmlDoc),
      (∀ s ∈ doc, ∀ o ∈ s.obs, exceptIsOk (parseObsValue o.obsValue) = true) →
      parse_bis_xml doc = .ok (specDocumentOrderRows doc)
  | [] => fun _ => rfl
  | s :: rest => fun h => by
    have h1 : parseSeriesObs (seriesCountry s) s.obs =
        .ok (s.obs.map (specRowOfObs (seriesCountry s))) :=
      parseSeriesObs_eq_of_all (seriesCountry s) s.obs (h s (List.mem_cons_self s rest))
    have h2 : parse_bis_xml rest = .ok (specDocumentOrderRows rest) :=
      parse_bis_xml_eq_of_all rest fun s2 hs2 => h s2 (List.mem_cons_of_mem s hs2)
    simp [parse_bis_xml, h1, h2, specDocumentOrderRows]

theorem specDocumentOrderRows_length :
    ∀ (doc : XmlDoc) (M : ℕ), (∀ s ∈ doc, s.obs.length = M) →
      (specDocumentOrderRows doc).length = doc.length * M
  | [] => fun _ _ => by simp [specDocumentOrderRows]
  | s :: rest => fun M h => by
    have h1 : s.obs.length = M := h s (List.mem_cons_self s rest)
    have h2 : (specDocumentOrderRows rest).length = rest.length * M :=
      specDocumentOrderRows_length rest M fun s2 hs2 => h s2 (List.mem_cons_of_mem s hs2)
    simp only [specDocumentOrderRows, List.map_cons, List.flatten_cons,
      List.length_append, List.length_map] at h2 ⊢
    rw [h1, h2]
    simp [List.length_cons]
    ring

/-- Row widths are preserved at indices inside the lag window. -/
theorem pct_change_row_length {n : ℕ} {m : List (List (Option ℚ))} {i : ℕ}
    (h : i < n) :
    ((pct_change n m).get? i).map List.length = (m.get? i).map List.length := by
  by_cases h2 : i < m.length
  · obtain ⟨r1, hr1⟩ : ∃ r, m.get? i = some r :=
      Option.isSome_iff_exists.mp (get?_isSome_of_lt h2)
    have hr1g : m[i]? = some r1 := by
      rw [← List.get?_eq_getElem?]
      exact hr1
    have hs : (shiftRows n m).get? i = some (r1.map fun _ => (none : Option ℚ)) := by
      rw [shiftRows_get?]
      simp [h2, h, List.getD_eq_getD_get?, hr1g]
    have hp : (pct_change n m).get? i =
        some ((List.zipWith optDiv r1 (r1.map fun _ => (none : Option ℚ))).map optSub1) := by
      rw [pct_change, get?_zipWith, hr1, hs]
      rfl
    rw [hp, hr1]
    simp
  · have hn1 : (pct_change n m).get? i = none :=
      get?_eq_none_of_le (by rw [pct_change_length]; exact Nat.le_of_not_lt h2)
    have hn2 : m.get? i = none := get?_eq_none_of_le (Nat.le_of_not_lt h2)
    rw [hn1, hn2]

/-! ## Claim theorems -/

/-- C1 (counterexample): on a row set with two rows sharing the
(date, series_key) pair (0, "US"), pandas pivot does not succeed with
the last value — it raises ValueError, so no PivotMatrix is built. -/
theorem pivotRows_dup_cex :
    pivotRows [{ date := 0, country := "US", value := some 1 },
               { date := 0, country := "US", value := some 2 }] =
      .error "Index contains duplicate entries, cannot reshape" := by
  rfl

/-- C1 (amended): constructing the PivotMatrix fails with pandas'
duplicate-entries ValueError exactly when some (date, series_key) pair
occurs in two rows; duplicates are never collapsed last-wins. -/
theorem pivotRows_error_iff_dup (rows : List PRow) :
    pivotRows rows = .error "Index contains duplicate entries, cannot reshape" ↔
      ¬ (rows.map fun r => (r.date, r.country)).Nodup := by
  by_cases h : (rows.map fun r => (r.date, r.country)).Nodup <;> simp [pivotRows, h]

/-- C2 (counterexample): a well-formed document whose single Obs has
the non-numeric OBS_VALUE "abc" makes the whole parse fail with a
ValueError instead of producing a null-valued record. -/
theorem parse_nonnumeric_cex :
    parse_bis_xml [⟨some "US", [⟨some "2020-Q1", some "abc"⟩]⟩] =
      .error ("ValueError: could not convert string to float: " ++ "abc") := by
  rfl

/-- C2 (amended): an Obs whose OBS_VALUE is absent or empty parses to
a record with a null value; but a non-empty non-numeric OBS_VALUE
raises ValueError, and one such Obs anywhere in the document makes the
parse of the whole document fail. -/
theorem parse_nullvalue_amended :
    (∀ (cty : String) (o : ObsEl), o.obsValue = none ∨ o.obsValue = some "" →
        parseObs cty o = .ok { date := o.timePeriod, value := none, country := cty })
    ∧ (∀ s : String, s ≠ "" → pyFloat s = none →
        parseObsValue (some s) =
          .error ("ValueError: could not convert string to float: " ++ s))
    ∧ (∀ (doc : XmlDoc) (se : SeriesEl) (o : ObsEl), se ∈ doc → o ∈ se.obs →
        exceptIsOk (parseObsValue o.obsValue) = false →
        exceptIsOk (parse_bis_xml doc) = false) := by
  refine ⟨?_, ?_, ?_⟩
  · intro cty o h
    rcases h with h | h <;> simp [parseObs, parseObsValue, h, Except.map]
  · intro s hs hf
    simp [parseObsValue, hs, hf]
  · intro doc se o hse ho hv
    rw [parse_bis_xml_isOk, List.all_eq_false]
    refine ⟨se, hse, ?_⟩
    rw [Bool.not_eq_true, parseSeriesObs_isOk, List.all_eq_false]
    exact ⟨o, ho, by simp [hv]⟩

theorem parse_nullvalue_amended_witness :
    parseObs "US" { timePeriod := some "2020-Q1", obsValue := none } =
        .ok { date := some "2020-Q1", value := none, country := "US" }
    ∧ parseObsValue (some "12x") =
        .error ("ValueError: could not convert string to float: " ++ "12x")
    ∧ exceptIsOk (parse_bis_xml [⟨some "US", [⟨some "2020-Q1", some "12x"⟩]⟩]) = false :=
  ⟨parse_nullvalue_amended.1 "US" _ (Or.inl rfl),
   parse_nullvalue_amended.2.1 "12x" (by decide) (by decide),
   parse_nullvalue_amended.2.2 _ _ ⟨some "2020-Q1", some "12x"⟩
     (List.mem_singleton.mpr rfl) (List.mem_singleton.mpr rfl) (by decide)⟩

/-- C3: the quarter-over-quarter transform (mode "qoq") yields at row
index i at least 1 the value (value[i]/value[i-1]) - 1 computed from
the untransformed matrix (undefined when either operand is), and the
null row at index 0. -/
theorem qoq_cell_formula :
    (∀ (p : Pivot) (units : String) (i j : ℕ), 1 ≤ i → i < p.data.length →
        cellAt ((transformed "qoq" units p).1.data) i j =
          pctCell (cellAt p.data i j) (cellAt p.data (i - 1) j))
    ∧ (∀ (p : Pivot) (units : String) (j : ℕ),
        cellAt ((transformed "qoq" units p).1.data) 0 j = none) := by
  have ht : ∀ (units : String) (p : Pivot),
      (transformed "qoq" units p).1.data = pct_change 1 p.data := fun _ _ => rfl
  refine ⟨?_, ?_⟩
  · intro p units i j h1 h2
    rw [ht]
    exact cellAt_pct_change h1 h2
  · intro p units j
    rw [ht]
    exact cellAt_pct_change_none (Or.inl Nat.one_pos)

theorem qoq_cell_formula_witness :
    cellAt ((transformed "qoq" "USD bn" pivotW).1.data) 1 0 =
        pctCell (cellAt pivotW.data 1 0) (cellAt pivotW.data 0 0)
    ∧ cellAt ((transformed "qoq" "USD bn" pivotW).1.data) 0 0 = none :=
  ⟨qoq_cell_formula.1 pivotW "USD bn" 1 0 (by decide) (by decide),
   qoq_cell_formula.2 pivotW "USD bn" 0⟩

/-- C4: the year-over-year transform (mode "yoy", 4-period lag) on a
matrix with fewer than 5 rows keeps the shape (row count and row
widths) and leaves every cell null. -/
theorem yoy_short_matrix_all_null :
    ∀ (p : Pivot) (units : String), p.data.length < 5 →
      ((transformed "yoy" units p).1.data.length = p.data.length)
      ∧ (∀ i : ℕ, ((transformed "yoy" units p).1.data.get? i).map List.length =
          (p.data.get? i).map List.length)
      ∧ (∀ i j : ℕ, cellAt ((transformed "yoy" units p).1.data) i j = none) := by
  intro p units h
  have ht : (transformed "yoy" units p).1.data = pct_change 4 p.data := rfl
  refine ⟨?_, ?_, ?_⟩
  · rw [ht, pct_change_length]
  · intro i
    rw [ht]
    by_cases hi : i < 4
    · exact pct_change_row_length hi
    · have hlen : p.data.length ≤ i := by omega
      rw [get?_eq_none_of_le (le_of_eq_of_le (pct_change_length 4 p.data) hlen),
        get?_eq_none_of_le hlen]
  · intro i j
    rw [ht]
    apply cellAt_pct_change_none
    by_cases hi : i < 4
    · exact Or.inl hi
    · exact Or.inr (by omega)

theorem yoy_short_matrix_all_null_witness :
    ((transformed "yoy" "USD bn" pivotW).1.data.length = pivotW.data.length)
    ∧ ((transformed "yoy" "USD bn" pivotW).1.data.get? 0).map List.length =
        (pivotW.data.get? 0).map List.length
    ∧ cellAt ((transformed "yoy" "USD bn" pivotW).1.data) 1 0 = none :=
  ⟨(yoy_short_matrix_all_null pivotW "USD bn" (by decide)).1,
   (yoy_short_matrix_all_null pivotW "USD bn" (by decide)).2.1 0,
   (yoy_short_matrix_all_null pivotW "USD bn" (by decide)).2.2 1 0⟩

/-- C5: a request whose parsed observation set is empty returns the
404 error response with the "No data returned from BIS." body; the
pivot and transform are never reached, and no figure is produced. -/
theorem empty_observations_404 :
    ∀ (doc : XmlDoc) (units theme : String) (sd : Option String) (mode : String),
      parse_bis_xml doc = .ok [] →
      bis_credit_chart doc units theme sd mode =
        .jsonError 404 "No data returned from BIS." := by
  intro doc units theme sd mode h
  simp [bis_credit_chart, h]

theorem empty_observations_404_witness :
    bis_credit_chart [] "USD bn" "light" none "total" =
      .jsonError 404 "No data returned from BIS." :=
  empty_observations_404 [] "USD bn" "light" none "total" rfl

/-- C6 (counterexample): on the chart-path fetcher
(fetch_bis_data_simple, also chart.py fetch_bis_data) a transport
failure surfaces as the raw RequestException itself, not as an
HTTP 500 FetchError-equivalent. -/
theorem fetch_simple_leaks_cex :
    isRawTransport
      (fetch_bis_data_simple (TransportOutcome.failure "ConnectionError: timed out" :
        TransportOutcome String)) = true := by
  rfl

/-- C6 (amended): the table-path fetcher fetch_bis_data wraps every
transport failure (raised exception or non-2xx status) into an
HTTPException 500 embedding the message, and never returns a raw
RequestException; but the chart-path fetcher fetch_bis_data_simple
propagates the raw transport exception unwrapped. -/
theorem fetch_error_wrapping_amended :
    (∀ m : String, fetch_bis_data (TransportOutcome.failure m) =
        .error (.httpException 500 ("Error fetching BIS series: " ++ m)))
    ∧ (∀ t : TransportOutcome XmlDoc, isRawTransport (fetch_bis_data t) = false)
    ∧ (∀ doc : XmlDoc, fetch_bis_data (TransportOutcome.response 404 doc) =
        .error (.httpException 500
          "Error fetching BIS series: HTTPError: status code 404"))
    ∧ (∀ m : String,
        fetch_bis_data_simple (TransportOutcome.failure m : TransportOutcome String) =
          .error (.requestException m)) := by
  refine ⟨fun m => rfl, ?_, fun doc => rfl, fun m => rfl⟩
  intro t
  cases t with
  | failure m => rfl
  | response s b =>
    simp only [fetch_bis_data, requests_get, raise_for_status]
    by_cases h : 400 ≤ s ∧ s < 600
    · simp [h, isRawTransport]
    · simp only [h, if_false]
      cases hp : parse_bis_xml b <;> simp [isRawTransport]

/-- C7: the startdate filter of the chart endpoint is inclusive: a row
survives the filter exactly when it was present and its date is
greater than or equal to the parsed start date, so a row dated exactly
startdate is retained and every earlier row is removed. -/
theorem filterStart_inclusive_iff :
    ∀ (start : ℤ) (rows : List PRow) (r : PRow),
      r ∈ filterStart start rows ↔ r ∈ rows ∧ start ≤ r.date := by
  intro start rows r
  simp [filterStart, List.mem_filter]

/-- C8 (counterexample): well-formed XML with K = 1 Series of M = 1
Obs whose OBS_VALUE is the non-numeric string "n/a" does not make the
parser return K times M records — the parse fails outright. -/
theorem parser_document_order_cex :
    exceptIsOk (parse_bis_xml [⟨some "JP", [⟨some "2020-Q1", some "n/a"⟩]⟩]) = false := by
  rfl

/-- C8 (amended): for a document of K Series with M Obs each in which
every OBS_VALUE is absent, empty or numeric, the parser returns
exactly K times M records laid out in document order (earlier Series
first, Obs order within a Series), with no deduplication and no
sorting. -/
theorem parser_document_order_amended :
    ∀ (doc : XmlDoc) (M : ℕ),
      (∀ s ∈ doc, ∀ o ∈ s.obs, exceptIsOk (parseObsValue o.obsValue) = true) →
      (∀ s ∈ doc, s.obs.length = M) →
      parse_bis_xml doc = .ok (specDocumentOrderRows doc)
        ∧ (specDocumentOrderRows doc).length = doc.length * M :=
  fun doc M hok hM =>
    ⟨parse_bis_xml_eq_of_all doc hok, specDocumentOrderRows_length doc M hM⟩

theorem parser_document_order_amended_witness :
    parse_bis_xml docW = .ok (specDocumentOrderRows docW)
      ∧ (specDocumentOrderRows docW).length = docW.length * 2 :=
  parser_document_order_amended docW 2 (by decide) (by decide)

/-- C9 (counterexample): for a 14-column matrix the line-chart colour
lookup colors[13] falls outside the 13-entry palette (an IndexError in
the source), so not every column of an N-column matrix is assigned a
colour. -/
theorem palette_overflow_cex : lineColor 14 13 = none := by
  rfl

/-- C9 (amended): the line/bar palette covers every column index only
for matrices of at most 13 columns; the palette is never extended
beyond its 13 hardcoded entries, so for 14 or more columns the lookup
at index 13 falls outside it, while the distribution kind wraps
modulo the palette length and never falls outside. -/
theorem palette_coverage_amended :
    (∀ n i : ℕ, 1 ≤ n → n ≤ 13 → i < n → (lineColor n i).isSome = true)
    ∧ (∀ n i : ℕ, (distColor n i).isSome = true)
    ∧ (∀ n : ℕ, 14 ≤ n → lineColor n 13 = none) := by
  have hlen : ∀ n : ℕ, (selectColors n).length =
      if n = 2 then 2 else if n = 3 then 5 else if n = 4 then 6
      else if n = 5 then 7 else 13 := by
    intro n
    simp only [selectColors]
    split_ifs <;> rfl
  refine ⟨?_, ?_, ?_⟩
  · intro n i h1 h13 hi
    apply get?_isSome_of_lt
    rw [hlen]
    split_ifs <;> omega
  · intro n i
    apply get?_isSome_of_lt
    apply Nat.mod_lt
    rw [hlen]
    split_ifs <;> omega
  · intro n h14
    have hsel : selectColors n = paletteElse := by
      simp only [selectColors]
      split_ifs <;> first | omega | rfl
    rw [lineColor, hsel]
    rfl

theorem palette_coverage_amended_witness :
    (lineColor 3 2).isSome = true
    ∧ (distColor 14 20).isSome = true
    ∧ lineColor 20 13 = none :=
  ⟨palette_coverage_amended.1 3 2 (by decide) (by decide) (by decide),
   palette_coverage_amended.2.1 14 20,
   palette_coverage_amended.2.2 20 (by decide)⟩

/-- C10: the colour assigned to a column by the renderer depends only
on the column index and the number of columns (the model is a pure
function, so two runs on identical input are identical); in particular
any 3-column matrix gives column 0 the colour "#f1c40f". -/
theorem color_depends_only_on_shape :
    (∀ (p1 p2 : Pivot) (n1 u1 t1 n2 u2 t2 : String) (i : ℕ),
        p1.cols.length = p2.cols.length →
        ((plot_ts p1 n1 u1 t1).traces.get? i).map Trace.color =
          ((plot_ts p2 n2 u2 t2).traces.get? i).map Trace.color)
    ∧ (∀ (p : Pivot) (n u t : String), p.cols.length = 3 →
        ((plot_ts p n u t).traces.get? 0).map Trace.color = some (some "#f1c40f")) := by
  have key : ∀ (p : Pivot) (n u t : String) (i : ℕ),
      ((plot_ts p n u t).traces.get? i).map Trace.color =
        if i < p.cols.length then some (lineColor p.cols.length i) else none := by
    intro p n u t i
    simp only [plot_ts]
    rw [get?_range_map]
    by_cases h : i < p.cols.length <;> simp [h]
  refine ⟨?_, ?_⟩
  · intro p1 p2 n1 u1 t1 n2 u2 t2 i h
    rw [key, key, h]
  · intro p n u t h
    rw [key, h]
    rfl

theorem color_depends_only_on_shape_witness :
    ((plot_ts pivotA "a" "u" "light").traces.get? 1).map Trace.color =
      ((plot_ts pivotB "b" "v" "dark").traces.get? 1).map Trace.color
    ∧ ((plot_ts pivotA "a" "u" "light").traces.get? 0).map Trace.color =
        some (some "#f1c40f") :=
  ⟨color_depends_only_on_shape.1 pivotA pivotB "a" "u" "light" "b" "v" "dark" 1 (by decide),
   color_depends_only_on_shape.2 pivotA "a" "u" "light" (by decide)⟩

end PyBIS
